import Mathlib

/-!
# Afrobeat Commander — verification of the keyed document store

Shallow embedding of the two persistence backends of the repository:

* the FlatFile variant (`src/server.js`): one JSON document on disk holding
  `availabilities`, `concerts`, `links` and `currentUsers`; every handler does
  a full `readData` / mutate / `writeData` cycle;
* the Relational variant (`src/unnamed/part_000`): a `(key, value)` table
  accessed through `getData` / `setData`.

JSON values are modelled by `Value`, JS objects by insertion-ordered
association lists, JS `||` by `jsOr` with JS truthiness, `parseInt` by
`parseIntJS` (`none` playing the role of `NaN`), and the parsed on-disk
document by `Document` with `FileState` recording the conditions under which
`fs.readFile` / `JSON.parse` throw.
-/

namespace AfrobeatCommander

/-- A JSON-compatible document value (objects are insertion-ordered
association lists, as JS objects with string keys are). Numbers are modelled
as integers: the only server-generated number is the `Date.now()` millisecond
timestamp. -/
inductive Value where
  | vnull
  | vbool (b : Bool)
  | vnum (n : Int)
  | vstr (s : String)
  | varr (elems : List Value)
  | vobj (fields : List (String × Value))
deriving Repr

/-- JS truthiness: `null`, `false`, `0`, `""` are falsy; every object and
array (even empty) is truthy. -/
def truthy : Value → Bool
  | .vnull => false
  | .vbool b => b
  | .vnum n => n != 0
  | .vstr s => s != ""
  | .varr _ => true
  | .vobj _ => true

/-- JS `v || d` for a defined value `v`. -/
def jsOr (v d : Value) : Value :=
  if truthy v then v else d

/-- JS `x || d` where `x` may be `undefined` (absent object property). -/
def jsOrOpt (x : Option Value) (d : Value) : Value :=
  match x with
  | some v => jsOr v d
  | none => d

/-- Property lookup on a JS object: first binding of the key, `none` being
`undefined`. -/
def objLookup (o : List (String × Value)) (k : String) : Option Value :=
  match o with
  | [] => none
  | (k', v) :: rest => if k' = k then some v else objLookup rest k

/-- JS property assignment `o[k] = v` (also `{...o, k: v}`): an existing key
keeps its position and gets the new value, a fresh key is appended. -/
def objSet (o : List (String × Value)) (k : String) (v : Value) :
    List (String × Value) :=
  match o with
  | [] => [(k, v)]
  | (k', v') :: rest => if k' = k then (k, v) :: rest else (k', v') :: objSet rest k v

/-- The handlers read list keys as `await getData(k) || []` and then use the
result as an array. Every value the source ever stores under `concerts` or
`links` is an array, so on reachable stores the value is `varr` or `vnull`;
other shapes are mapped to `[]`. -/
def jsOrArr (v : Value) : List Value :=
  match v with
  | .varr xs => xs
  | _ => []

/-! ## JS `parseInt` and `decodeURIComponent` (the fragments the routes use) -/

/-- Value of a digit character under the given radix (JS `parseInt` accepts
`0-9`, `a-z`, `A-Z` up to the radix). -/
def digitVal? (radix : Nat) (c : Char) : Option Nat :=
  let v :=
    if '0' ≤ c ∧ c ≤ '9' then some (c.toNat - '0'.toNat)
    else if 'a' ≤ c ∧ c ≤ 'z' then some (c.toNat - 'a'.toNat + 10)
    else if 'A' ≤ c ∧ c ≤ 'Z' then some (c.toNat - 'A'.toNat + 10)
    else none
  match v with
  | some d => if d < radix then some d else none
  | none => none

/-- Accumulate the longest prefix of radix digits, the first digit already
consumed. -/
def parseDigits (radix : Nat) (acc : Nat) : List Char → Nat
  | [] => acc
  | c :: rest =>
    match digitVal? radix c with
    | some d => parseDigits radix (radix * acc + d) rest
    | none => acc

/-- Digits of the given radix at the front of the input; `none` (JS `NaN`)
when the first character is not a digit. Further characters after the digit
prefix are ignored, exactly as JS `parseInt` ignores them. -/
def parseIntCore (radix : Nat) : List Char → Option Nat
  | [] => none
  | c :: rest =>
    match digitVal? radix c with
    | some d => some (parseDigits radix d rest)
    | none => none

/-- ECMA-262 WhiteSpace and LineTerminator, the characters `parseInt` skips
at the front of its input: TAB, LF, VT, FF, CR, SP, NBSP, ZWNBSP (BOM), the
Unicode Zs space separators (U+1680, U+2000–U+200A, U+202F, U+205F, U+3000),
and the LS/PS line terminators. -/
def isSpaceChar (c : Char) : Bool :=
  c = ' ' ∨ c = '\t' ∨ c = '\n' ∨ c = '\r'
  ∨ c.toNat = 0x0B ∨ c.toNat = 0x0C ∨ c.toNat = 0xA0 ∨ c.toNat = 0xFEFF
  ∨ c.toNat = 0x1680 ∨ (0x2000 ≤ c.toNat ∧ c.toNat ≤ 0x200A)
  ∨ c.toNat = 0x2028 ∨ c.toNat = 0x2029 ∨ c.toNat = 0x202F
  ∨ c.toNat = 0x205F ∨ c.toNat = 0x3000

/-- Radix selection of `parseInt` with no radix argument: a `0x`/`0X` prefix
selects base 16, otherwise base 10. -/
def parseIntRadix : List Char → Option Nat
  | '0' :: 'x' :: rest => parseIntCore 16 rest
  | '0' :: 'X' :: rest => parseIntCore 16 rest
  | cs => parseIntCore 10 cs

/-- JS `parseInt(s)` (no radix argument): trim leading whitespace, optional
sign, longest digit prefix; `none` is `NaN`. In the handlers `NaN` makes both
range comparisons false, which the theorems account for at the use sites. -/
def parseIntJS (s : String) : Option Int :=
  match s.data.dropWhile isSpaceChar with
  | '-' :: rest => (parseIntRadix rest).map (fun n => -(n : Int))
  | '+' :: rest => (parseIntRadix rest).map (fun n => (n : Int))
  | cs => (parseIntRadix cs).map (fun n => (n : Int))

def hexVal? (c : Char) : Option Nat := digitVal? 16 c

/-- The fragment of JS `decodeURIComponent` the routes exercise: every
`%hh` escape is replaced by the character with that code (single-byte
escapes such as `%20`; multi-byte UTF-8 escape sequences are out of the
scope of this model), other characters pass through. -/
def percentDecode : List Char → List Char
  | '%' :: h1 :: h2 :: rest =>
    match hexVal? h1, hexVal? h2 with
    | some a, some b => Char.ofNat (16 * a + b) :: percentDecode rest
    | _, _ => '%' :: percentDecode (h1 :: h2 :: rest)
  | c :: rest => c :: percentDecode rest
  | [] => []

def decodeURIComponent (s : String) : String :=
  ⟨percentDecode s.data⟩

/-! ## Relational backend (src/unnamed/part_000)

The `app_data` table keyed by the unique `key` column is the function
`Store`; `up` models whether the PostgreSQL pool is reachable (a query on an
unreachable pool rejects, landing in the `catch` branch of each utility). -/

def Store := String → Option Value

def emptyStore : Store := fun _ => none

/-- `getData(key)` (lines 44-55): `SELECT value FROM app_data WHERE key = $1`;
the stored value if a row exists, otherwise `null` — and on a query error the
`catch` returns `null` as well, so an unreachable backend is observationally
an absent key. -/
def getData (up : Bool) (store : Store) (key : String) : Value :=
  if up then
    match store key with
    | some v => v
    | none => Value.vnull
  else Value.vnull

/-- `setData(key, value)` (lines 57-71): atomic upsert on the unique key;
returns the updated store and `true`, or the unchanged store and `false` when
the query errors. -/
def setData (up : Bool) (store : Store) (key : String) (value : Value) :
    Store × Bool :=
  if up then ((fun k => if k = key then some value else store k), true)
  else (store, false)

/-! ## FlatFile backend (src/server.js) -/

/-- The parsed shape of `data.json`: the four top-level fields
`initDataFile` creates and every handler addresses. `availabilities` and
`currentUsers` are JS objects (insertion-ordered association lists). -/
structure Document where
  availabilities : List (String × Value)
  concerts : List Value
  links : List Value
  currentUsers : List (String × Value)
deriving Repr

/-- The condition of the data file when a handler runs: `missing` covers any
`fs.readFile` rejection (no file, I/O error), `corrupt` a `JSON.parse`
failure, `ok` a readable well-formed document. -/
inductive FileState where
  | missing
  | corrupt
  | ok (d : Document)

/-- The structure `readData` (and `initDataFile`) falls back to. -/
def defaultDocument : Document :=
  { availabilities := [], concerts := [], links := [], currentUsers := [] }

/-- `readData()` (lines 33-46): read and parse the file; any error in the
`try` block is caught and the fixed empty structure returned instead. -/
def readData : FileState → Document
  | .missing => defaultDocument
  | .corrupt => defaultDocument
  | .ok d => d

/-- `writeData(data)` (lines 49-57): serialize and write the whole document,
returning `true`; a disk error leaves the previous file state and returns
`false`. -/
def writeData (fs : FileState) (d : Document) (diskOk : Bool) :
    FileState × Bool :=
  if diskOk then (.ok d, true) else (fs, false)

/-! ## Route handlers

Each handler is a pure function of the backend state and the request pieces
it reads (path parameters, JSON body, and `Date.now()` for the concert
timestamp). Writes in the happy path are modelled as applied; the write
success flag of the store utilities is covered by `setData` / `writeData`
above. -/

/-- The fixed band member list of the `availability/all` handlers. -/
def members : List String :=
  ["Lead Guitar", "Bass", "Drums", "Keys", "Saxophone", "Vocals"]

/-! ### Relational variant handlers (src/unnamed/part_000) -/

/-- GET `/api/current-user/:userId` (lines 96-101). -/
def getCurrentUserPg (up : Bool) (store : Store) (userId : String) : Value :=
  getData up store ("current_user_" ++ userId)

/-- POST `/api/current-user/:userId` (lines 104-109). -/
def postCurrentUserPg (up : Bool) (store : Store) (userId : String)
    (bodyUser : Value) : Store × Bool × Value :=
  let r := setData up store ("current_user_" ++ userId) bodyUser
  (r.1, r.2, bodyUser)

/-- GET `/api/availability/:member/:year/:month` (lines 112-119). -/
def getAvailabilityPg (up : Bool) (store : Store)
    (member year month : String) : Value :=
  let decodedMember := decodeURIComponent member
  let key := "availability_" ++ decodedMember ++ "_" ++ year ++ "_" ++ month
  jsOr (getData up store key) (.vobj [])

/-- POST `/api/availability/:member/:year/:month` (lines 122-129); the body
is the availability map. -/
def postAvailabilityPg (up : Bool) (store : Store)
    (member year month : String) (body : Value) : Store × Bool :=
  let decodedMember := decodeURIComponent member
  let key := "availability_" ++ decodedMember ++ "_" ++ year ++ "_" ++ month
  setData up store key body

/-- GET `/api/availability/all/:year/:month` (lines 132-148): one `getData`
per fixed member name (no percent-decoding — the names are literals),
collected into one object in member order. -/
def getAllAvailabilityPg (up : Bool) (store : Store)
    (year month : String) : Value :=
  .vobj (members.map (fun member =>
    let key := "availability_" ++ member ++ "_" ++ year ++ "_" ++ month
    (member, jsOr (getData up store key) (.vobj []))))

/-- GET `/api/concerts` (lines 151-154). -/
def getConcertsPg (up : Bool) (store : Store) : Value :=
  jsOr (getData up store "concerts") (.varr [])

/-- POST `/api/concerts` (lines 157-167): read-modify-write; the new concert
is the body spread plus `addedAt: Date.now()` appended at the end. -/
def postConcertPg (up : Bool) (store : Store)
    (body : List (String × Value)) (now : Int) : Store × Bool × Value :=
  let concerts := jsOrArr (getData up store "concerts")
  let newConcert := Value.vobj (objSet body "addedAt" (.vnum now))
  let r := setData up store "concerts" (.varr (concerts ++ [newConcert]))
  (r.1, r.2, newConcert)

/-- GET `/api/links` (lines 186-189). -/
def getLinksPg (up : Bool) (store : Store) : Value :=
  jsOr (getData up store "links") (.varr [])

/-- POST `/api/links` (lines 192-198): the body is pushed as-is. -/
def postLinkPg (up : Bool) (store : Store) (body : Value) :
    Store × Bool × Value :=
  let links := jsOrArr (getData up store "links")
  let r := setData up store "links" (.varr (links ++ [body]))
  (r.1, r.2, body)

/-! ### Delete-by-index

The four DELETE handlers (`/api/concerts/:index` and `/api/links/:index` in
both variants) share one body verbatim: `parseInt` the path parameter, test
`index >= 0 && index < list.length`, `splice(index, 1)` and write back on
success, `400 {success:false, error:'Index invalide'}` without any write
otherwise. `NaN` (here `none`) fails both JS comparisons and lands in the
`else` branch. -/

/-- Outcome of one delete-by-index request: the stored list afterwards,
whether a write-back happened, and the response fields. -/
structure DeleteOutcome where
  list : List Value
  wrote : Bool
  status : Nat
  success : Bool
  error : Option String
deriving Repr

def deleteByIndex (stored : List Value) (indexParam : String) : DeleteOutcome :=
  match parseIntJS indexParam with
  | some index =>
    if 0 ≤ index ∧ index < (stored.length : Int) then
      { list := stored.eraseIdx index.toNat, wrote := true,
        status := 200, success := true, error := none }
    else
      { list := stored, wrote := false,
        status := 400, success := false, error := some "Index invalide" }
  | none =>
    { list := stored, wrote := false,
      status := 400, success := false, error := some "Index invalide" }

/-- DELETE `/api/concerts/:index`, Relational (lines 170-183): the stored
list is `await getData('concerts') || []`. -/
def deleteConcertPg (up : Bool) (store : Store) (indexParam : String) :
    Store × DeleteOutcome :=
  let concerts := jsOrArr (getData up store "concerts")
  let outcome := deleteByIndex concerts indexParam
  if outcome.wrote then
    ((setData up store "concerts" (.varr outcome.list)).1, outcome)
  else (store, outcome)

/-- DELETE `/api/links/:index`, Relational (lines 201-214). -/
def deleteLinkPg (up : Bool) (store : Store) (indexParam : String) :
    Store × DeleteOutcome :=
  let links := jsOrArr (getData up store "links")
  let outcome := deleteByIndex links indexParam
  if outcome.wrote then
    ((setData up store "links" (.varr outcome.list)).1, outcome)
  else (store, outcome)

/-! ### FlatFile variant handlers (src/server.js)

Each handler starts from the parsed document `readData` produced and, when it
writes, writes the whole mutated document back. -/

/-- GET `/api/current-user/:userId` (lines 68-73):
`data.currentUsers[userId] || null`. -/
def getCurrentUserFile (d : Document) (userId : String) : Value :=
  jsOrOpt (objLookup d.currentUsers userId) .vnull

/-- POST `/api/current-user/:userId` (lines 76-82). -/
def postCurrentUserFile (d : Document) (userId : String) (bodyUser : Value) :
    Document × Value :=
  ({ d with currentUsers := objSet d.currentUsers userId bodyUser }, bodyUser)

/-- GET `/api/availability/:member/:year/:month` (lines 85-93): the key into
the `availabilities` field is `` `${decodedMember}_${year}_${month}` ``. -/
def getAvailabilityFile (d : Document) (member year month : String) : Value :=
  let decodedMember := decodeURIComponent member
  let key := decodedMember ++ "_" ++ year ++ "_" ++ month
  jsOrOpt (objLookup d.availabilities key) (.vobj [])

/-- POST `/api/availability/:member/:year/:month` (lines 96-105). -/
def postAvailabilityFile (d : Document) (member year month : String)
    (body : Value) : Document :=
  let decodedMember := decodeURIComponent member
  let key := decodedMember ++ "_" ++ year ++ "_" ++ month
  { d with availabilities := objSet d.availabilities key body }

/-- GET `/api/availability/all/:year/:month` (lines 108-124). -/
def getAllAvailabilityFile (d : Document) (year month : String) : Value :=
  .vobj (members.map (fun member =>
    let key := member ++ "_" ++ year ++ "_" ++ month
    (member, jsOrOpt (objLookup d.availabilities key) (.vobj []))))

/-- GET `/api/concerts` (lines 127-130): `res.json(data.concerts)`. -/
def getConcertsFile (d : Document) : Value :=
  .varr d.concerts

/-- POST `/api/concerts` (lines 133-143). -/
def postConcertFile (d : Document) (body : List (String × Value)) (now : Int) :
    Document × Value :=
  let newConcert := Value.vobj (objSet body "addedAt" (.vnum now))
  ({ d with concerts := d.concerts ++ [newConcert] }, newConcert)

/-- DELETE `/api/concerts/:index` (lines 146-158). -/
def deleteConcertFile (d : Document) (indexParam : String) :
    Document × DeleteOutcome :=
  let outcome := deleteByIndex d.concerts indexParam
  if outcome.wrote then ({ d with concerts := outcome.list }, outcome)
  else (d, outcome)

/-- GET `/api/links` (lines 161-164). -/
def getLinksFile (d : Document) : Value :=
  .varr d.links

/-- POST `/api/links` (lines 167-173). -/
def postLinkFile (d : Document) (body : Value) : Document × Value :=
  ({ d with links := d.links ++ [body] }, body)

/-- DELETE `/api/links/:index` (lines 176-188). -/
def deleteLinkFile (d : Document) (indexParam : String) :
    Document × DeleteOutcome :=
  let outcome := deleteByIndex d.links indexParam
  if outcome.wrote then ({ d with links := outcome.list }, outcome)
  else (d, outcome)

/-! ### Key Namespace (§4.3 of the spec) -/

/-- The availability store key of the Relational variant. -/
def availabilityKeyPg (member year month : String) : String :=
  "availability_" ++ member ++ "_" ++ year ++ "_" ++ month

/-- The key into the `availabilities` field in the FlatFile variant — note:
no `availability_` prefix. -/
def availabilityKeyFile (member year month : String) : String :=
  member ++ "_" ++ year ++ "_" ++ month

/-! ## Helper lemmas -/

theorem objLookup_objSet_self (o : List (String × Value)) (k : String)
    (v : Value) : objLookup (objSet o k v) k = some v := by
  induction o with
  | nil => simp [objSet, objLookup]
  | cons hd tl ih =>
    obtain ⟨k', v'⟩ := hd
    by_cases h : k' = k <;> simp [objSet, objLookup, h, ih]

theorem objLookup_objSet_ne (o : List (String × Value)) (k k' : String)
    (v : Value) (h : k' ≠ k) :
    objLookup (objSet o k v) k' = objLookup o k' := by
  have h' : ¬ k = k' := fun hk => h hk.symm
  induction o with
  | nil => simp [objSet, objLookup, h']
  | cons hd tl ih =>
    obtain ⟨k₀, v₀⟩ := hd
    by_cases h0 : k₀ = k
    · subst h0
      simp [objSet, objLookup, h']
    · simp [objSet, objLookup, h0, ih]

theorem deleteByIndex_list_of_not_wrote (xs : List Value) (s : String)
    (h : (deleteByIndex xs s).wrote = false) :
    (deleteByIndex xs s).list = xs := by
  unfold deleteByIndex at h ⊢
  cases hp : parseIntJS s with
  | none => simp [hp]
  | some i =>
    simp only [hp] at h ⊢
    by_cases hc : 0 ≤ i ∧ i < (xs.length : Int)
    · rw [if_pos hc] at h
      simp at h
    · rw [if_neg hc]

/-!
## C1 — delete-by-index removes exactly the indexed element, rejects
out-of-range indices without mutating
-/

/-- C1: for every list-valued key (concerts, links, in both variants) and
integer index `i`, delete-by-index with `0 ≤ i < length` removes exactly the
element at position `i` (the result is `take i ++ drop (i+1)`, one element
shorter) and writes the new list back; with `i < 0` or `i ≥ length` it
performs no write, leaves the stored list unchanged, and responds 400 with
`success = false` and an error message. The last four conjuncts tie the
shared core to the four DELETE endpoints. -/
theorem delete_by_index_correct (xs : List Value) (s : String) (i : Int)
    (hparse : parseIntJS s = some i) :
    (0 ≤ i ∧ i < (xs.length : Int) →
        (deleteByIndex xs s).list = xs.take i.toNat ++ xs.drop (i.toNat + 1)
      ∧ (deleteByIndex xs s).list.length + 1 = xs.length
      ∧ (deleteByIndex xs s).wrote = true)
  ∧ (i < 0 ∨ (xs.length : Int) ≤ i →
        (deleteByIndex xs s).list = xs
      ∧ (deleteByIndex xs s).wrote = false
      ∧ (deleteByIndex xs s).status = 400
      ∧ (deleteByIndex xs s).success = false
      ∧ (deleteByIndex xs s).error = some "Index invalide")
  ∧ (∀ d : Document,
        (deleteConcertFile d s).1.concerts = (deleteByIndex d.concerts s).list
      ∧ (deleteConcertFile d s).2 = deleteByIndex d.concerts s
      ∧ (deleteLinkFile d s).1.links = (deleteByIndex d.links s).list
      ∧ (deleteLinkFile d s).2 = deleteByIndex d.links s)
  ∧ (∀ store : Store, ∀ ys : List Value, store "concerts" = some (.varr ys) →
        (deleteConcertPg true store s).1 "concerts"
          = some (.varr (deleteByIndex ys s).list)
      ∧ (deleteConcertPg true store s).2 = deleteByIndex ys s)
  ∧ (∀ store : Store, ∀ ys : List Value, store "links" = some (.varr ys) →
        (deleteLinkPg true store s).1 "links"
          = some (.varr (deleteByIndex ys s).list)
      ∧ (deleteLinkPg true store s).2 = deleteByIndex ys s) := by
  refine ⟨?_, ?_, ?_, ?_, ?_⟩
  · rintro ⟨h0, hlen⟩
    have ht : i.toNat < xs.length := by omega
    have hcond : 0 ≤ i ∧ i < (xs.length : Int) := ⟨h0, hlen⟩
    simp only [deleteByIndex, hparse, if_pos hcond]
    refine ⟨List.eraseIdx_eq_take_drop_succ xs i.toNat, ?_, by trivial⟩
    rw [List.length_eraseIdx_of_lt ht]
    omega
  · intro hout
    have hcond : ¬ (0 ≤ i ∧ i < (xs.length : Int)) := by omega
    simp [deleteByIndex, hparse, hcond]
  · intro d
    constructor
    · by_cases hw : (deleteByIndex d.concerts s).wrote
      · simp [deleteConcertFile, hw]
      · simp only [Bool.not_eq_true] at hw
        simp [deleteConcertFile, hw,
          deleteByIndex_list_of_not_wrote d.concerts s hw]
    constructor
    · by_cases hw : (deleteByIndex d.concerts s).wrote <;>
        simp_all [deleteConcertFile]
    constructor
    · by_cases hw : (deleteByIndex d.links s).wrote
      · simp [deleteLinkFile, hw]
      · simp only [Bool.not_eq_true] at hw
        simp [deleteLinkFile, hw,
          deleteByIndex_list_of_not_wrote d.links s hw]
    · by_cases hw : (deleteByIndex d.links s).wrote <;>
        simp_all [deleteLinkFile]
  · intro store ys hstore
    have hget : jsOrArr (getData true store "concerts") = ys := by
      simp [getData, hstore, jsOrArr]
    constructor
    · by_cases hw : (deleteByIndex ys s).wrote
      · simp [deleteConcertPg, hget, hw, setData]
      · simp only [Bool.not_eq_true] at hw
        simp [deleteConcertPg, hget, hw, hstore,
          deleteByIndex_list_of_not_wrote ys s hw]
    · by_cases hw : (deleteByIndex ys s).wrote <;>
        simp_all [deleteConcertPg, hget]
  · intro store ys hstore
    have hget : jsOrArr (getData true store "links") = ys := by
      simp [getData, hstore, jsOrArr]
    constructor
    · by_cases hw : (deleteByIndex ys s).wrote
      · simp [deleteLinkPg, hget, hw, setData]
      · simp only [Bool.not_eq_true] at hw
        simp [deleteLinkPg, hget, hw, hstore,
          deleteByIndex_list_of_not_wrote ys s hw]
    · by_cases hw : (deleteByIndex ys s).wrote <;>
        simp_all [deleteLinkPg, hget]

/-- Witness for C1: on the two-element list, index `0` deletes the first
element, index `5` is rejected with `success = false` and no change. -/
theorem delete_by_index_correct_witness :
    (deleteByIndex [Value.vnum 10, Value.vnum 20] "0").list = [Value.vnum 20]
  ∧ (deleteByIndex [Value.vnum 10, Value.vnum 20] "5").list
      = [Value.vnum 10, Value.vnum 20]
  ∧ (deleteByIndex [Value.vnum 10, Value.vnum 20] "5").success = false := by
  have h0 := delete_by_index_correct [Value.vnum 10, Value.vnum 20] "0" 0
    (by decide)
  have h5 := delete_by_index_correct [Value.vnum 10, Value.vnum 20] "5" 5
    (by decide)
  have hin := h0.1 (by constructor <;> decide)
  have hout := h5.2.1 (by right; decide)
  exact ⟨by simpa using hin.1, hout.1, hout.2.2.2.1⟩

/-!
## C2 — POST /api/concerts appends the stamped body as the new last element
-/

/-- C2: with no concurrent writer, POST `/api/concerts` grows the stored
list by exactly one; the new last element is the request body extended with
the server-assigned numeric `addedAt`; a subsequent GET returns a list whose
last element carries the posted `location`, `date` and that `addedAt` — in
both variants (`xs` is the prior stored list of the Relational variant,
absent meaning `[]`). -/
theorem post_concert_appends (d : Document) (store : Store) (xs : List Value)
    (body : List (String × Value)) (now : Int) (loc dt : Value)
    (hloc : objLookup body "location" = some loc)
    (hdt : objLookup body "date" = some dt)
    (hstore : store "concerts" = some (.varr xs)
      ∨ (store "concerts" = none ∧ xs = [])) :
    (postConcertFile d body now).1.concerts
        = d.concerts ++ [.vobj (objSet body "addedAt" (.vnum now))]
  ∧ (postConcertFile d body now).1.concerts.length = d.concerts.length + 1
  ∧ getConcertsFile (postConcertFile d body now).1
        = .varr (d.concerts ++ [.vobj (objSet body "addedAt" (.vnum now))])
  ∧ (postConcertPg true store body now).2.1 = true
  ∧ (postConcertPg true store body now).2.2
        = .vobj (objSet body "addedAt" (.vnum now))
  ∧ getConcertsPg true (postConcertPg true store body now).1
        = .varr (xs ++ [.vobj (objSet body "addedAt" (.vnum now))])
  ∧ (xs ++ [Value.vobj (objSet body "addedAt" (.vnum now))]).getLast?
        = some (.vobj (objSet body "addedAt" (.vnum now)))
  ∧ objLookup (objSet body "addedAt" (.vnum now)) "location" = some loc
  ∧ objLookup (objSet body "addedAt" (.vnum now)) "date" = some dt
  ∧ objLookup (objSet body "addedAt" (.vnum now)) "addedAt"
        = some (.vnum now) := by
  have hprior : jsOrArr (getData true store "concerts") = xs := by
    rcases hstore with h | ⟨h, hxs⟩
    · simp [getData, jsOrArr, h]
    · simp [getData, jsOrArr, h, hxs]
  refine ⟨rfl, by simp [postConcertFile], by rfl, ?_, ?_, ?_, ?_, ?_, ?_, ?_⟩
  · simp [postConcertPg, setData]
  · simp [postConcertPg, setData]
  · have hst : (postConcertPg true store body now).1
        = (setData true store "concerts"
            (.varr (xs ++ [.vobj (objSet body "addedAt" (.vnum now))]))).1 := by
      simp [postConcertPg, hprior]
    rw [hst]
    simp [getConcertsPg, getData, setData, jsOr, truthy]
  · simp
  · rw [objLookup_objSet_ne body "addedAt" "location" _ (by decide)]
    exact hloc
  · rw [objLookup_objSet_ne body "addedAt" "date" _ (by decide)]
    exact hdt
  · exact objLookup_objSet_self body "addedAt" _

/-- Witness for C2: posting `{location: "Venue A", date: "2025-05-01"}` on
the empty state, then GET, yields the one-element list with the stamped
concert. -/
theorem post_concert_appends_witness :
    getConcertsFile (postConcertFile defaultDocument
        [("location", Value.vstr "Venue A"), ("date", Value.vstr "2025-05-01")]
        1700000000000).1
      = .varr [.vobj [("location", Value.vstr "Venue A"),
          ("date", Value.vstr "2025-05-01"),
          ("addedAt", Value.vnum 1700000000000)]]
  ∧ getConcertsPg true (postConcertPg true emptyStore
        [("location", Value.vstr "Venue A"), ("date", Value.vstr "2025-05-01")]
        1700000000000).1
      = .varr [.vobj [("location", Value.vstr "Venue A"),
          ("date", Value.vstr "2025-05-01"),
          ("addedAt", Value.vnum 1700000000000)]] := by
  have h := post_concert_appends defaultDocument emptyStore []
    [("location", Value.vstr "Venue A"), ("date", Value.vstr "2025-05-01")]
    1700000000000 (Value.vstr "Venue A") (Value.vstr "2025-05-01")
    rfl rfl (Or.inr ⟨rfl, rfl⟩)
  refine ⟨?_, ?_⟩
  · have hc := h.2.2.1
    simpa [objSet, defaultDocument] using hc
  · have hc := h.2.2.2.2.2.1
    simpa [objSet] using hc

/-!
## C3 — reading a never-written key yields the defined absent value
-/

/-- C3: for a key never written, each read site returns its defined absent
value — `null` for current-user pointers, `{}` for availability maps, `[]`
for concerts and links — in both variants, and the read is a total function
(no error outcome exists on this path). -/
theorem get_absent_returns_default
    (store : Store) (d : Document) (userId member year month : String)
    (hcu : store ("current_user_" ++ userId) = none)
    (hav : store (availabilityKeyPg (decodeURIComponent member) year month)
      = none)
    (hc : store "concerts" = none) (hl : store "links" = none)
    (hcuF : objLookup d.currentUsers userId = none)
    (havF : objLookup d.availabilities
      (availabilityKeyFile (decodeURIComponent member) year month) = none)
    (hcF : d.concerts = []) (hlF : d.links = []) :
    getCurrentUserPg true store userId = .vnull
  ∧ getAvailabilityPg true store member year month = .vobj []
  ∧ getConcertsPg true store = .varr []
  ∧ getLinksPg true store = .varr []
  ∧ getCurrentUserFile d userId = .vnull
  ∧ getAvailabilityFile d member year month = .vobj []
  ∧ getConcertsFile d = .varr []
  ∧ getLinksFile d = .varr [] := by
  refine ⟨?_, ?_, ?_, ?_, ?_, ?_, ?_, ?_⟩
  · simp [getCurrentUserPg, getData, hcu]
  · have h := hav
    simp only [availabilityKeyPg] at h
    simp [getAvailabilityPg, getData, h, jsOr, truthy]
  · simp [getConcertsPg, getData, hc, jsOr, truthy]
  · simp [getLinksPg, getData, hl, jsOr, truthy]
  · simp [getCurrentUserFile, hcuF, jsOrOpt]
  · have h := havF
    simp only [availabilityKeyFile] at h
    simp [getAvailabilityFile, h, jsOrOpt]
  · simp [getConcertsFile, hcF]
  · simp [getLinksFile, hlF]

/-- Witness for C3 on the empty store and the fresh default document. -/
theorem get_absent_returns_default_witness :
    getCurrentUserPg true emptyStore "alice" = .vnull
  ∧ getAvailabilityPg true emptyStore "Bass" "2025" "05" = .vobj []
  ∧ getConcertsPg true emptyStore = .varr []
  ∧ getLinksPg true emptyStore = .varr []
  ∧ getCurrentUserFile defaultDocument "alice" = .vnull
  ∧ getAvailabilityFile defaultDocument "Bass" "2025" "05" = .vobj []
  ∧ getConcertsFile defaultDocument = .varr []
  ∧ getLinksFile defaultDocument = .varr [] :=
  get_absent_returns_default emptyStore defaultDocument "alice" "Bass"
    "2025" "05" rfl rfl rfl rfl rfl rfl rfl rfl

/-!
## C4 — put followed by get round-trips
-/

/-- C4: a successful put followed by a get of the same key with no
intervening write returns exactly the stored value: `setData`/`getData` in
the Relational variant for every key and value, and the whole-document
`writeData`/`readData` cycle of the FlatFile variant. -/
theorem put_get_roundtrip (up : Bool) (store : Store) (k : String) (v : Value)
    (diskOk : Bool) (fs : FileState) (d : Document)
    (hup : (setData up store k v).2 = true)
    (hdisk : (writeData fs d diskOk).2 = true) :
    getData up (setData up store k v).1 k = v
  ∧ readData (writeData fs d diskOk).1 = d := by
  cases up with
  | false => simp [setData] at hup
  | true =>
    cases diskOk with
    | false => simp [writeData] at hdisk
    | true => exact ⟨by simp [getData, setData], by simp [readData, writeData]⟩

/-- Witness for C4 at a concrete key, value and document. -/
theorem put_get_roundtrip_witness :
    getData true (setData true emptyStore "concerts" (Value.vstr "x")).1
      "concerts" = Value.vstr "x"
  ∧ readData (writeData FileState.missing defaultDocument true).1
      = defaultDocument :=
  put_get_roundtrip true emptyStore "concerts" (Value.vstr "x") true
    .missing defaultDocument rfl rfl

/-!
## C5 — availability key derivation

The Relational variant derives `availability_<member>_<year>_<month>`; the
FlatFile variant derives `<member>_<year>_<month>` (no prefix) as the key
within its `availabilities` field, so the claim that both variants use the
prefixed string fails on the FlatFile source.
-/

/-- C5 counterexample: the FlatFile variant does not address availability
data by the `availability_`-prefixed key: a document holding the map under
the prefixed key misses on read, while the unprefixed key hits; the two
variants' derivations differ on the same inputs. -/
theorem availability_key_counterexample :
    getAvailabilityFile
      { defaultDocument with availabilities :=
          [("availability_Bass_2025_05",
            Value.vobj [("2025-05-01", Value.vstr "yes")])] }
      "Bass" "2025" "05" = .vobj []
  ∧ getAvailabilityFile
      { defaultDocument with availabilities :=
          [("Bass_2025_05", Value.vobj [("2025-05-01", Value.vstr "yes")])] }
      "Bass" "2025" "05" = .vobj [("2025-05-01", Value.vstr "yes")]
  ∧ availabilityKeyFile (decodeURIComponent "Bass") "2025" "05"
      ≠ availabilityKeyPg (decodeURIComponent "Bass") "2025" "05" :=
  ⟨rfl, rfl, by decide⟩

/-- C5 (amended): the Relational variant derives every availability store
key as `"availability_" ++ decodedMember ++ "_" ++ year ++ "_" ++ month`;
the FlatFile variant derives the key within its `availabilities` field as
`decodedMember ++ "_" ++ year ++ "_" ++ month` (no prefix); within each
variant the same derivation is used at every call site (the `all` endpoint
applying it to the six literal member names), so a write is found by the
matching read. -/
theorem availability_key_derivation (up : Bool) (store : Store) (d : Document)
    (member year month : String) (body : Value)
    (fields : List (String × Value)) :
    getAvailabilityPg up store member year month
      = jsOr (getData up store
          (availabilityKeyPg (decodeURIComponent member) year month)) (.vobj [])
  ∧ postAvailabilityPg up store member year month body
      = setData up store
          (availabilityKeyPg (decodeURIComponent member) year month) body
  ∧ getAllAvailabilityPg up store year month
      = .vobj (members.map (fun m =>
          (m, jsOr (getData up store (availabilityKeyPg m year month))
            (.vobj []))))
  ∧ getAvailabilityFile d member year month
      = jsOrOpt (objLookup d.availabilities
          (availabilityKeyFile (decodeURIComponent member) year month))
          (.vobj [])
  ∧ postAvailabilityFile d member year month body
      = { d with
          availabilities :=
            objSet d.availabilities
              (availabilityKeyFile (decodeURIComponent member) year month)
              body }
  ∧ getAvailabilityPg true
        (postAvailabilityPg true store member year month (.vobj fields)).1
        member year month
      = .vobj fields
  ∧ getAvailabilityFile
        (postAvailabilityFile d member year month (.vobj fields))
        member year month
      = .vobj fields := by
  refine ⟨rfl, rfl, rfl, rfl, rfl, ?_, ?_⟩
  · simp [getAvailabilityPg, postAvailabilityPg, getData, setData, jsOr,
      truthy]
  · simp [getAvailabilityFile, postAvailabilityFile, jsOrOpt, jsOr, truthy,
      objLookup_objSet_self]

/-- Witness for the amended C5 at concrete parameters (a percent-encoded
member name decoding to `Lead Guitar`). -/
theorem availability_key_derivation_witness :
    getAvailabilityPg true
        (postAvailabilityPg true emptyStore "Lead%20Guitar" "2025" "05"
          (.vobj [("2025-05-01", Value.vstr "yes")])).1
        "Lead%20Guitar" "2025" "05"
      = .vobj [("2025-05-01", Value.vstr "yes")]
  ∧ getAvailabilityFile
        (postAvailabilityFile defaultDocument "Lead%20Guitar" "2025" "05"
          (.vobj [("2025-05-01", Value.vstr "yes")]))
        "Lead%20Guitar" "2025" "05"
      = .vobj [("2025-05-01", Value.vstr "yes")] := by
  have h := availability_key_derivation true emptyStore defaultDocument
    "Lead%20Guitar" "2025" "05" (.vobj [("2025-05-01", Value.vstr "yes")])
    [("2025-05-01", Value.vstr "yes")]
  exact ⟨h.2.2.2.2.2.1, h.2.2.2.2.2.2⟩

/-!
## C6 — availability/all with no prior writes: six members, all empty
-/

/-- C6: for every year and month, GET `/api/availability/all/:year/:month`
on a store holding no availability entry returns the object with exactly the
six fixed member names as keys, each mapped to the empty object, in both
variants. -/
theorem get_all_availability_empty (store : Store) (d : Document)
    (year month : String)
    (hav : ∀ m : String, store (availabilityKeyPg m year month) = none)
    (havF : d.availabilities = []) :
    getAllAvailabilityPg true store year month
      = .vobj [("Lead Guitar", .vobj []), ("Bass", .vobj []),
          ("Drums", .vobj []), ("Keys", .vobj []),
          ("Saxophone", .vobj []), ("Vocals", .vobj [])]
  ∧ getAllAvailabilityFile d year month
      = .vobj [("Lead Guitar", .vobj []), ("Bass", .vobj []),
          ("Drums", .vobj []), ("Keys", .vobj []),
          ("Saxophone", .vobj []), ("Vocals", .vobj [])] := by
  have h := hav
  simp only [availabilityKeyPg] at h
  constructor
  · have hg : ∀ m : String,
        jsOr (getData true store
          ("availability_" ++ m ++ "_" ++ year ++ "_" ++ month)) (.vobj [])
          = .vobj [] := by
      intro m
      simp [getData, h m, jsOr, truthy]
    simp only [getAllAvailabilityPg, members, List.map]
    rw [hg "Lead Guitar", hg "Bass", hg "Drums", hg "Keys", hg "Saxophone",
      hg "Vocals"]
  · simp [getAllAvailabilityFile, members, havF, objLookup, jsOrOpt]

/-- Witness for C6 on the empty store and default document. -/
theorem get_all_availability_empty_witness :
    getAllAvailabilityPg true emptyStore "2025" "05"
      = .vobj [("Lead Guitar", .vobj []), ("Bass", .vobj []),
          ("Drums", .vobj []), ("Keys", .vobj []),
          ("Saxophone", .vobj []), ("Vocals", .vobj [])]
  ∧ getAllAvailabilityFile defaultDocument "2025" "05"
      = .vobj [("Lead Guitar", .vobj []), ("Bass", .vobj []),
          ("Drums", .vobj []), ("Keys", .vobj []),
          ("Saxophone", .vobj []), ("Vocals", .vobj [])] :=
  get_all_availability_empty emptyStore defaultDocument "2025" "05"
    (fun _ => rfl) rfl

/-!
## C7 — non-numeric :index

`parseInt` takes the longest digit prefix, so only strings with no digit
prefix behave like an out-of-range index; a string such as `"1x"` is treated
as the index `1`.
-/

/-- C7 counterexample: `"1x"` is not a numeral, yet DELETE
`/api/concerts/1x` on a two-element list deletes the element at position 1
and reports success — not the claimed 400-equivalent error with no
mutation. -/
theorem delete_nonnumeric_counterexample :
    (deleteConcertFile
        { defaultDocument with concerts := [Value.vnum 10, Value.vnum 20] }
        "1x").1.concerts = [Value.vnum 10]
  ∧ (deleteConcertFile
        { defaultDocument with concerts := [Value.vnum 10, Value.vnum 20] }
        "1x").2.success = true
  ∧ (deleteConcertFile
        { defaultDocument with concerts := [Value.vnum 10, Value.vnum 20] }
        "1x").2.status = 200 :=
  ⟨rfl, rfl, rfl⟩

/-- C7 (amended): a `:index` string on which `parseInt` yields `NaN` (no
leading digit prefix after optional whitespace and sign) is treated exactly
like an out-of-range index by all four DELETE endpoints: 400 response,
`success = false`, error message, and no modification of the stored state; a
string with a digit prefix is instead treated as that integer. -/
theorem delete_nonnumeric_rejected (xs : List Value) (s : String)
    (h : parseIntJS s = none) :
    deleteByIndex xs s
      = { list := xs, wrote := false, status := 400, success := false,
          error := some "Index invalide" }
  ∧ (∀ d : Document,
        (deleteConcertFile d s).1 = d ∧ (deleteLinkFile d s).1 = d)
  ∧ (∀ up : Bool, ∀ store : Store,
        (deleteConcertPg up store s).1 = store
      ∧ (deleteLinkPg up store s).1 = store) := by
  have hout : ∀ ys : List Value, deleteByIndex ys s
      = { list := ys, wrote := false, status := 400, success := false,
          error := some "Index invalide" } := by
    intro ys
    simp [deleteByIndex, h]
  refine ⟨hout xs, ?_, ?_⟩
  · intro d
    constructor
    · simp [deleteConcertFile, hout d.concerts]
    · simp [deleteLinkFile, hout d.links]
  · intro up store
    constructor
    · simp [deleteConcertPg, hout]
    · simp [deleteLinkPg, hout]

/-- Witness for the amended C7 at the non-numeric string `"abc"`. -/
theorem delete_nonnumeric_rejected_witness :
    deleteByIndex [Value.vnum 1] "abc"
      = { list := [Value.vnum 1], wrote := false, status := 400,
          success := false, error := some "Index invalide" } :=
  (delete_nonnumeric_rejected [Value.vnum 1] "abc" (by decide)).1

/-!
## C8 — backend failure vs absent key on reads

Both variants swallow read errors: the Relational `getData` catch returns
`null` (the absent result) and the FlatFile `readData` catch returns the
default empty structure (the fresh-file result), so a failed read is not
distinguishable by the caller from an absent key. Write failures are
distinguishable: `setData`/`writeData` return `false`.
-/

/-- C8 counterexample: with the backend down, `getData` returns `null` even
though the store holds a value under the key — exactly the result a healthy
read of a never-written key gives; the FlatFile `readData` likewise returns
the default structure for a missing or corrupt file, identical to reading a
freshly initialised empty file. -/
theorem read_error_indistinguishable :
    getData false (fun _ => some (Value.vstr "stored")) "concerts"
      = getData true emptyStore "concerts"
  ∧ getData false (fun _ => some (Value.vstr "stored")) "concerts"
      = Value.vnull
  ∧ readData .corrupt = readData (.ok defaultDocument)
  ∧ readData .missing = readData (.ok defaultDocument) :=
  ⟨rfl, rfl, rfl, rfl⟩

/-- C8 (amended): read failures are not distinguishable from absent keys —
a failed Relational read returns `null` like any absent key, and a failed
FlatFile read returns the default empty structure like a fresh empty file;
only write failures are distinguishable, through the `false` success flag of
`setData`/`writeData`. -/
theorem read_error_vs_absent (store : Store) (k : String) (v : Value)
    (fs : FileState) (d : Document) :
    getData false store k = getData true emptyStore k
  ∧ getData false store k = Value.vnull
  ∧ readData .corrupt = readData (.ok defaultDocument)
  ∧ readData .missing = readData (.ok defaultDocument)
  ∧ (setData false store k v).2 = false
  ∧ (setData true store k v).2 = true
  ∧ (writeData fs d false).2 = false
  ∧ (writeData fs d true).2 = true :=
  ⟨rfl, rfl, rfl, rfl, rfl, rfl, rfl, rfl⟩

/-!
## C9 — FlatFile single-entity writes are frame-preserving
-/

/-- C9: in the FlatFile variant, each single-entity write (one current-user
pointer, one availability map, or one list operation) leaves every other
top-level field of the document and every other key within the written field
unchanged. -/
theorem flatfile_write_frame (d : Document) (userId member year month : String)
    (bodyUser body : Value) (bodyC : List (String × Value)) (now : Int)
    (link : Value) (s : String) (u' k' : String)
    (hu : u' ≠ userId)
    (hk : k' ≠ availabilityKeyFile (decodeURIComponent member) year month) :
    ((postCurrentUserFile d userId bodyUser).1.availabilities
        = d.availabilities
  ∧ (postCurrentUserFile d userId bodyUser).1.concerts = d.concerts
  ∧ (postCurrentUserFile d userId bodyUser).1.links = d.links
  ∧ objLookup (postCurrentUserFile d userId bodyUser).1.currentUsers u'
        = objLookup d.currentUsers u')
  ∧ ((postAvailabilityFile d member year month body).concerts = d.concerts
  ∧ (postAvailabilityFile d member year month body).links = d.links
  ∧ (postAvailabilityFile d member year month body).currentUsers
        = d.currentUsers
  ∧ objLookup (postAvailabilityFile d member year month body).availabilities
        k' = objLookup d.availabilities k')
  ∧ ((postConcertFile d bodyC now).1.availabilities = d.availabilities
  ∧ (postConcertFile d bodyC now).1.links = d.links
  ∧ (postConcertFile d bodyC now).1.currentUsers = d.currentUsers)
  ∧ ((postLinkFile d link).1.availabilities = d.availabilities
  ∧ (postLinkFile d link).1.concerts = d.concerts
  ∧ (postLinkFile d link).1.currentUsers = d.currentUsers)
  ∧ ((deleteConcertFile d s).1.availabilities = d.availabilities
  ∧ (deleteConcertFile d s).1.links = d.links
  ∧ (deleteConcertFile d s).1.currentUsers = d.currentUsers)
  ∧ ((deleteLinkFile d s).1.availabilities = d.availabilities
  ∧ (deleteLinkFile d s).1.concerts = d.concerts
  ∧ (deleteLinkFile d s).1.currentUsers = d.currentUsers) := by
  simp only [availabilityKeyFile] at hk
  refine ⟨⟨rfl, rfl, rfl, ?_⟩, ⟨rfl, rfl, rfl, ?_⟩, ⟨rfl, rfl, rfl⟩,
    ⟨rfl, rfl, rfl⟩, ⟨?_, ?_, ?_⟩, ⟨?_, ?_, ?_⟩⟩
  · exact objLookup_objSet_ne d.currentUsers userId u' bodyUser hu
  · exact objLookup_objSet_ne d.availabilities _ k' body hk
  · by_cases hw : (deleteByIndex d.concerts s).wrote <;>
      simp [deleteConcertFile, hw]
  · by_cases hw : (deleteByIndex d.concerts s).wrote <;>
      simp [deleteConcertFile, hw]
  · by_cases hw : (deleteByIndex d.concerts s).wrote <;>
      simp [deleteConcertFile, hw]
  · by_cases hw : (deleteByIndex d.links s).wrote <;>
      simp [deleteLinkFile, hw]
  · by_cases hw : (deleteByIndex d.links s).wrote <;>
      simp [deleteLinkFile, hw]
  · by_cases hw : (deleteByIndex d.links s).wrote <;>
      simp [deleteLinkFile, hw]

/-- Witness for C9: writing `alice`'s pointer and `Bass`'s May 2025
availability touches neither `bob`'s pointer nor the `Drums` key. -/
theorem flatfile_write_frame_witness :
    objLookup (postCurrentUserFile defaultDocument "alice"
        (Value.vstr "A")).1.currentUsers "bob"
      = objLookup defaultDocument.currentUsers "bob"
  ∧ objLookup (postAvailabilityFile defaultDocument "Bass" "2025" "05"
        (.vobj [])).availabilities "Drums_2025_05"
      = objLookup defaultDocument.availabilities "Drums_2025_05" := by
  have h := flatfile_write_frame defaultDocument "alice" "Bass" "2025" "05"
    (Value.vstr "A") (.vobj []) [] 0 Value.vnull "0" "bob" "Drums_2025_05"
    (by decide) (by decide)
  exact ⟨h.1.2.2.2, h.2.1.2.2.2⟩

/-!
## C10 — FlatFile missing/corrupt file falls back to the empty structure
-/

/-- C10: in the FlatFile variant, a missing data file or one whose content
fails to parse makes every `readData` return the fixed default empty
structure, so every GET endpoint still answers with its absent-shaped value
rather than an error. -/
theorem missing_or_corrupt_file_falls_back
    (userId member year month : String) :
    readData .missing = defaultDocument
  ∧ readData .corrupt = defaultDocument
  ∧ getCurrentUserFile (readData .missing) userId = .vnull
  ∧ getCurrentUserFile (readData .corrupt) userId = .vnull
  ∧ getAvailabilityFile (readData .missing) member year month = .vobj []
  ∧ getAvailabilityFile (readData .corrupt) member year month = .vobj []
  ∧ getConcertsFile (readData .missing) = .varr []
  ∧ getConcertsFile (readData .corrupt) = .varr []
  ∧ getLinksFile (readData .missing) = .varr []
  ∧ getLinksFile (readData .corrupt) = .varr []
  ∧ getAllAvailabilityFile (readData .missing) year month
      = .vobj [("Lead Guitar", .vobj []), ("Bass", .vobj []),
          ("Drums", .vobj []), ("Keys", .vobj []),
          ("Saxophone", .vobj []), ("Vocals", .vobj [])]
  ∧ getAllAvailabilityFile (readData .corrupt) year month
      = .vobj [("Lead Guitar", .vobj []), ("Bass", .vobj []),
          ("Drums", .vobj []), ("Keys", .vobj []),
          ("Saxophone", .vobj []), ("Vocals", .vobj [])] :=
  ⟨rfl, rfl, rfl, rfl, rfl, rfl, rfl, rfl, rfl, rfl, rfl, rfl⟩

end AfrobeatCommander
